import Mathlib

/-!
Verification of the license-plate recognition API server
(`Deep-Learning/api_server.py`): the resilient structured-extraction
pipeline (`extract_text_with_llm`, lines 179-215) and the request
orchestration of `POST /recognize` (`recognize_license_plate`,
lines 250-377).

The embedding models:
  * Python `json.loads` as an executable recursive-descent parser
    `parseJson` over `List Char` (strict JSON plus the stdlib's
    `NaN`/`Infinity`/`-Infinity` constants; duplicate keys resolved
    last-wins as in a Python dict);
  * the regex fallback `re.search` of pattern "curly, non-curly
    chars, closing curly" as `findBraceMatch`;
  * the endpoint as a function of the request, the external detector's
    outcome and the external extraction service's outcome, returning
    the HTTP status, the response fields and a trace of the temporary
    file artifacts created and removed.
-/

namespace LPApi

/-- A JSON value as produced by Python's `json.loads`.  Numbers are kept
as their source lexeme (their numeric value is never inspected by the
program under verification).  Objects keep their key/value pairs in
parse order; lookup is last-wins, matching Python dict construction. -/
inductive Json where
  | null : Json
  | bool : Bool → Json
  | num : String → Json
  | str : String → Json
  | arr : List Json → Json
  | obj : List (String × Json) → Json

/-- JSON whitespace, exactly the characters skipped by Python's
`json` scanner. -/
def isJsonWs (c : Char) : Bool :=
  c = ' ' ∨ c = '\t' ∨ c = '\n' ∨ c = '\r'

def skipWs : List Char → List Char
  | [] => []
  | c :: rest => if isJsonWs c then skipWs rest else c :: rest

def hexVal (c : Char) : Option Nat :=
  if c.isDigit then some (c.toNat - 48)
  else if 'a' ≤ c ∧ c ≤ 'f' then some (c.toNat - 87)
  else if 'A' ≤ c ∧ c ≤ 'F' then some (c.toNat - 55)
  else none

/-- Body of a JSON string literal, after the opening quote: collect
characters up to the closing quote, decoding escapes; control
characters below 0x20 are rejected (strict mode).  Fueled; the caller
passes at least the length of the input, which is enough since every
step consumes at least one character. -/
def parseStrBody : Nat → List Char → List Char → Option (String × List Char)
  | 0, _, _ => none
  | Nat.succ fuel, acc, cs =>
    match cs with
    | [] => none
    | c :: rest =>
      if c = '"' then some (String.mk acc.reverse, rest)
      else if c = '\\' then
        match rest with
        | [] => none
        | e :: rest2 =>
          if e = '"' then parseStrBody fuel ('"' :: acc) rest2
          else if e = '\\' then parseStrBody fuel ('\\' :: acc) rest2
          else if e = '/' then parseStrBody fuel ('/' :: acc) rest2
          else if e = 'b' then parseStrBody fuel ('\x08' :: acc) rest2
          else if e = 'f' then parseStrBody fuel ('\x0c' :: acc) rest2
          else if e = 'n' then parseStrBody fuel ('\n' :: acc) rest2
          else if e = 'r' then parseStrBody fuel ('\r' :: acc) rest2
          else if e = 't' then parseStrBody fuel ('\t' :: acc) rest2
          else if e = 'u' then
            match rest2 with
            | h1 :: h2 :: h3 :: h4 :: rest3 =>
              match hexVal h1, hexVal h2, hexVal h3, hexVal h4 with
              | some a, some b, some c2, some d2 =>
                parseStrBody fuel
                  (Char.ofNat (((a * 16 + b) * 16 + c2) * 16 + d2) :: acc) rest3
              | _, _, _, _ => none
            | _ => none
          else none
      else if c.toNat < 32 then none
      else parseStrBody fuel (c :: acc) rest

/-- A JSON number lexeme: `-?(0|[1-9][0-9]*)(\.[0-9]+)?([eE][-+]?[0-9]+)?`,
the regex used by Python's `json` scanner.  The optional fraction and
exponent groups are included only when complete, exactly as a regex
group match. -/
def parseNum (cs : List Char) : Option (String × List Char) :=
  let (neg, cs1) :=
    match cs with
    | '-' :: r => ((['-'] : List Char), r)
    | _ => (([] : List Char), cs)
  match cs1 with
  | [] => none
  | c :: rest =>
    if ¬ c.isDigit then none
    else
      let (ipart, cs2) :=
        if c = '0' then (([c] : List Char), rest)
        else (c :: rest.takeWhile Char.isDigit, rest.dropWhile Char.isDigit)
      let (fpart, cs3) :=
        match cs2 with
        | '.' :: r =>
          match r.takeWhile Char.isDigit with
          | [] => (([] : List Char), cs2)
          | ds => ('.' :: ds, r.dropWhile Char.isDigit)
        | _ => (([] : List Char), cs2)
      let (epart, cs4) :=
        match cs3 with
        | e :: r =>
          if e = 'e' ∨ e = 'E' then
            let (sgn, r2) :=
              match r with
              | s :: rr => if s = '+' ∨ s = '-' then (([s] : List Char), rr)
                           else (([] : List Char), r)
              | [] => (([] : List Char), r)
            match r2.takeWhile Char.isDigit with
            | [] => (([] : List Char), cs3)
            | ds => (e :: (sgn ++ ds), r2.dropWhile Char.isDigit)
          else (([] : List Char), cs3)
        | [] => (([] : List Char), cs3)
      some (String.mk (neg ++ ipart ++ fpart ++ epart), cs4)

mutual

/-- Parse one JSON value (after skipping leading whitespace), as
Python's `json` scanner does: the literals `null`, `true`, `false`,
the stdlib constants `NaN`, `Infinity`, `-Infinity`, strings, arrays,
objects, and numbers.  Fueled for termination; `parseJson` supplies
ample fuel. -/
def pVal : Nat → List Char → Option (Json × List Char)
  | 0, _ => none
  | Nat.succ fuel, cs =>
    match skipWs cs with
    | 'n' :: 'u' :: 'l' :: 'l' :: rest => some (Json.null, rest)
    | 't' :: 'r' :: 'u' :: 'e' :: rest => some (Json.bool true, rest)
    | 'f' :: 'a' :: 'l' :: 's' :: 'e' :: rest => some (Json.bool false, rest)
    | 'N' :: 'a' :: 'N' :: rest => some (Json.num "NaN", rest)
    | 'I' :: 'n' :: 'f' :: 'i' :: 'n' :: 'i' :: 't' :: 'y' :: rest =>
      some (Json.num "Infinity", rest)
    | '-' :: 'I' :: 'n' :: 'f' :: 'i' :: 'n' :: 'i' :: 't' :: 'y' :: rest =>
      some (Json.num "-Infinity", rest)
    | '"' :: rest =>
      match parseStrBody (rest.length + 1) [] rest with
      | some (s, r) => some (Json.str s, r)
      | none => none
    | '[' :: rest => pArr fuel (skipWs rest)
    | '{' :: rest => pObj fuel (skipWs rest)
    | other =>
      match parseNum other with
      | some (s, r) => some (Json.num s, r)
      | none => none

/-- Array continuation, entered just after `[` with whitespace skipped. -/
def pArr : Nat → List Char → Option (Json × List Char)
  | 0, _ => none
  | Nat.succ fuel, cs =>
    match cs with
    | ']' :: rest => some (Json.arr [], rest)
    | _ =>
      match pVal fuel cs with
      | some (v, r) => pArrRest fuel [v] (skipWs r)
      | none => none

def pArrRest : Nat → List Json → List Char → Option (Json × List Char)
  | 0, _, _ => none
  | Nat.succ fuel, acc, cs =>
    match cs with
    | ']' :: rest => some (Json.arr acc.reverse, rest)
    | ',' :: rest =>
      match pVal fuel rest with
      | some (v, r) => pArrRest fuel (v :: acc) (skipWs r)
      | none => none
    | _ => none

/-- Object continuation, entered just after an opening curly brace with
whitespace skipped.  Keys must be double-quoted strings (strict). -/
def pObj : Nat → List Char → Option (Json × List Char)
  | 0, _ => none
  | Nat.succ fuel, cs =>
    match cs with
    | '}' :: rest => some (Json.obj [], rest)
    | _ =>
      match pPair fuel cs with
      | some (kv, r) => pObjRest fuel [kv] (skipWs r)
      | none => none

def pObjRest : Nat → List (String × Json) → List Char → Option (Json × List Char)
  | 0, _, _ => none
  | Nat.succ fuel, acc, cs =>
    match cs with
    | '}' :: rest => some (Json.obj acc.reverse, rest)
    | ',' :: rest =>
      match pPair fuel (skipWs rest) with
      | some (kv, r) => pObjRest fuel (kv :: acc) (skipWs r)
      | none => none
    | _ => none

/-- One `"key" : value` member of an object. -/
def pPair : Nat → List Char → Option ((String × Json) × List Char)
  | 0, _ => none
  | Nat.succ fuel, cs =>
    match cs with
    | '"' :: rest =>
      match parseStrBody (rest.length + 1) [] rest with
      | some (k, r) =>
        match skipWs r with
        | ':' :: r2 =>
          match pVal fuel r2 with
          | some (v, r3) => some ((k, v), r3)
          | none => none
        | _ => none
      | none => none
    | _ => none

end

/-- Model of Python `json.loads`: parse one value, then require only
whitespace to remain (`Extra data` error otherwise).  Returns `none`
exactly when `json.loads` raises `json.JSONDecodeError`. -/
def parseJson (s : String) : Option Json :=
  let cs := s.toList
  match pVal (4 * cs.length + 16) cs with
  | some (v, rest) => if (skipWs rest).isEmpty then some v else none
  | none => none

example : parseJson "null" = some Json.null := rfl
example : parseJson "  42 " = some (Json.num "42") := rfl
example : parseJson "\x7b\"a\": \"b\"\x7d" =
    some (Json.obj [("a", Json.str "b")]) := rfl
example : parseJson "\x7b\"a\": [1, true, \"x\"]\x7d" =
    some (Json.obj [("a", Json.arr [Json.num "1", Json.bool true, Json.str "x"])]) := rfl
example : parseJson "hello" = none := rfl
example : parseJson "\x7b\"a\":1" = none := rfl
example : parseJson "\x7b\"a\":1\x7d extra" = none := rfl
example : parseJson "01" = none := rfl
example : parseJson "-1.5e+3" = some (Json.num "-1.5e+3") := rfl
example : parseJson "\"a\\nb\"" = some (Json.str "a\nb") := rfl

/-!
The embedded-object fallback of `extract_text_with_llm` (line 198):
`re.search` of the pattern "an opening curly brace, any number of
non-curly characters, a closing curly brace".  The leftmost match is
returned: the match starts at the first opening curly brace whose next
curly character is a closing one.
-/

/-- From just after an opening curly brace, collect characters up to
the next curly character; succeed exactly when that character is a
closing brace (the regex's interior may not contain either brace). -/
def scanBody : List Char → Option (List Char × List Char)
  | [] => none
  | c :: rest =>
    if c = '}' then some ([], rest)
    else if c = '{' then none
    else
      match scanBody rest with
      | some (body, r) => some (c :: body, r)
      | none => none

/-- The first (leftmost) substring consisting of a single balanced
brace pair with no nested braces, as found by the `re.search` call. -/
def findBraceMatch : List Char → Option (List Char)
  | [] => none
  | c :: rest =>
    if c = '{' then
      match scanBody rest with
      | some (body, _) => some ('{' :: (body ++ ['}']))
      | none => findBraceMatch rest
    else findBraceMatch rest

/-- `m` has the shape matched by the fallback regex: an opening brace,
interior characters none of which is a brace, a closing brace. -/
def isBraceSpan (m : List Char) : Prop :=
  ∃ body, m = '{' :: (body ++ ['}']) ∧ body.all (fun c => ¬(c = '{' ∨ c = '}')) = true

/-- `m` occurs in `cs` immediately after the prefix `pre`. -/
def spanAt (cs pre m : List Char) : Prop :=
  ∃ post, cs = pre ++ (m ++ post)

/-!
Python dict operations used by the parsing stage: key membership
(`field in plate_data`), `.get(field, 'UNREADABLE')`, and the `in`
operator on the other value shapes `json.loads` can produce
(`in` on a list is element equality, on a string substring search,
and raises `TypeError` on numbers, booleans and `None`).
-/

/-- Lookup in a parsed object, last binding wins (Python dict built
from the parsed pairs). -/
def dictLookup : List (String × Json) → String → Option Json
  | [], _ => none
  | (k, v) :: rest, key =>
    match dictLookup rest key with
    | some v2 => some v2
    | none => if k = key then some v else none

/-- `key in plate_data` for a dict. -/
def hasKey (kvs : List (String × Json)) (key : String) : Bool :=
  (dictLookup kvs key).isSome

/-- `plate_data.get(key, 'UNREADABLE')`. -/
def pget (kvs : List (String × Json)) (key : String) : Json :=
  (dictLookup kvs key).getD (Json.str "UNREADABLE")

/-- Python `==` between a string and a JSON value (only a string of
equal contents compares equal). -/
def jsonEqStr (f : String) : Json → Bool
  | Json.str s => s == f
  | _ => false

/-- Python `f in v`: key membership for a dict, element equality for a
list, substring search for a string; `none` models the `TypeError`
raised for numbers, booleans and `None`. -/
def listStartsWith : List Char → List Char → Bool
  | [], _ => true
  | _ :: _, [] => false
  | a :: as2, b :: bs => (a == b) && listStartsWith as2 bs

def occursIn (needle hay : List Char) : Bool :=
  match hay with
  | [] => listStartsWith needle []
  | _ :: t => listStartsWith needle hay || occursIn needle t

def pyContains (f : String) : Json → Option Bool
  | Json.obj kvs => some (kvs.any (fun kv => kv.1 == f))
  | Json.arr xs => some (xs.any (jsonEqStr f))
  | Json.str s => some (occursIn f.toList s.toList)
  | _ => none

/-- `all(field in plate_data for field in required_fields)`
(line 185); `none` models the `TypeError` escaping to the enclosing
generic handler. -/
def pyContainsAll (j : Json) : Option Bool :=
  match pyContains "left_number" j, pyContains "middle_text" j,
        pyContains "right_number" j with
  | some a, some b, some c => some (a && b && c)
  | _, _, _ => none

/-- The dict built on lines 189-193 and 203-207: every missing field
filled with the sentinel, present fields kept as-is. -/
def fillDefaults (d : List (String × Json)) : Json :=
  Json.obj [("left_number", pget d "left_number"),
            ("middle_text", pget d "middle_text"),
            ("right_number", pget d "right_number")]

/-- Outcome of the parsing stage of `extract_text_with_llm`
(lines 179-215):
  * `data j` — returned a non-`None` `plate_data` (`j` is the dict,
    or in degenerate cases the non-dict JSON value that passed the
    field-membership check);
  * `failParse raw` — the `return None, None, (error, raw_response)`
    of line 215, carrying the raw reply content;
  * `err` — an exception escaped to the generic handler of line 235
    (or a transport/configuration failure), yielding `None` without a
    `raw_response`. -/
inductive ExtractOut where
  | data (j : Json)
  | failParse (raw : String)
  | err

/-- Lines 188-194: the missing-fields arm — `plate_data.get` succeeds
on a dict and fills defaults; on any other value the attribute access
raises, landing in the generic handler. -/
def fillOrErr : Json → ExtractOut
  | Json.obj d => ExtractOut.data (fillDefaults d)
  | _ => ExtractOut.err

/-- Lines 179-194: the direct-parse branch, applied when
`json.loads(response_content)` succeeded with value `j`. -/
def handleDirect (j : Json) : ExtractOut :=
  match pyContainsAll j with
  | none => ExtractOut.err
  | some true => ExtractOut.data j
  | some false => fillOrErr j

/-- Lines 200-210: the parse of the regex match (always an object when
it parses, since the matched substring starts with an opening curly
brace); a second decode error falls through to total failure. -/
def handleParsed (content : String) : Option Json → ExtractOut
  | some (Json.obj d) => ExtractOut.data (fillDefaults d)
  | some _ => ExtractOut.err
  | none => ExtractOut.failParse content

/-- Lines 196-215: the `json.JSONDecodeError` branch — regex search for
an embedded object, then the same field completion; total failure when
no brace pair is found at all. -/
def fallbackOf (content : String) : Option (List Char) → ExtractOut
  | none => ExtractOut.failParse content
  | some m => handleParsed content (parseJson (String.mk m))

def handleFallback (content : String) : ExtractOut :=
  fallbackOf content (findBraceMatch content.toList)

def parsedOf (content : String) : Option Json → ExtractOut
  | some j => handleDirect j
  | none => handleFallback content

/-- The full parsing ladder applied to `response_content` (the reply's
message content, already stripped on line 175). -/
def parse_llm_content (content : String) : ExtractOut :=
  parsedOf content (parseJson content)

/-- Outcome of the extraction service call as seen by
`extract_text_with_llm`: either HTTP 200 with a reply content, or any
of the failure modes (missing API key, timeout, connection error,
non-200 status), all of which return `None` for `plate_data`. -/
inductive LLMOutcome where
  | reply (content : String)
  | failure

/-- `extract_text_with_llm`, abstracted over the service outcome. -/
def extract_text_with_llm : LLMOutcome → ExtractOut
  | LLMOutcome.reply content => parse_llm_content content
  | LLMOutcome.failure => ExtractOut.err

example : parse_llm_content "\x7b\"left_number\":\"123\",\"middle_text\":\"X\",\"right_number\":\"45\"\x7d" =
    ExtractOut.data (Json.obj [("left_number", Json.str "123"),
      ("middle_text", Json.str "X"), ("right_number", Json.str "45")]) := rfl
example : parse_llm_content "\x7b\"left_number\":\"123\"\x7d" =
    ExtractOut.data (Json.obj [("left_number", Json.str "123"),
      ("middle_text", Json.str "UNREADABLE"),
      ("right_number", Json.str "UNREADABLE")]) := rfl
example : parse_llm_content "Here is the result: \x7b\"left_number\":\"7\",\"middle_text\":\"X\",\"right_number\":\"9\"\x7d thanks" =
    ExtractOut.data (Json.obj [("left_number", Json.str "7"),
      ("middle_text", Json.str "X"), ("right_number", Json.str "9")]) := rfl
example : parse_llm_content "no json at all" = ExtractOut.failParse "no json at all" := rfl
example : parse_llm_content "[1, 2]" = ExtractOut.err := rfl

/-!
The `POST /recognize` endpoint, `recognize_license_plate`
(lines 250-377), as a function of the inbound request and of the two
external collaborators (the plate detector and the extraction
service).  The result records the HTTP status, the `success` flag, the
three plate fields of a success response, and a trace of the temporary
file artifacts: the uploaded image (`image_path`) and the extracted
plate image written to the output folder (`extracted_path`).
-/

structure FileUpload where
  filename : String
deriving DecidableEq

/-- The parts of a Flask request inspected by the endpoint: the form
files (an association list keyed by field name, first binding wins as
in a MultiDict), the `Content-Type` header, and the length of the raw
body. -/
structure Request where
  files : List (String × FileUpload)
  contentType : Option String
  bodyLen : Nat

def flookup : List (String × FileUpload) → String → Option FileUpload
  | [], _ => none
  | (k, f) :: rest, key => if k = key then some f else flookup rest key

/-- `request.files.get('image') or request.files.get('file')`
(line 294).  A Werkzeug `FileStorage` is falsy exactly when its
filename is empty, so an empty-named `image` entry falls through to
the `file` entry; the result may be `none` (Python `None`), on which
the subsequent attribute access raises. -/
def formFile (files : List (String × FileUpload)) : Option FileUpload :=
  match flookup files "image" with
  | some f => if f.filename ≠ "" then some f else flookup files "file"
  | none => flookup files "file"

def ALLOWED_EXTENSIONS : List String := ["png", "jpg", "jpeg", "gif", "bmp"]

/-- `filename.rsplit('.', 1)[1]`: the characters after the last dot. -/
def extAfterLastDot (s : String) : String :=
  String.mk ((s.toList.reverse.takeWhile (fun c => c != '.')).reverse)

/-- ASCII lowercase of a character (`str.lower()` restricted to the
ASCII range, which is all the allow-list comparison can distinguish). -/
def lowerChar (c : Char) : Char :=
  if 'A' ≤ c ∧ c ≤ 'Z' then Char.ofNat (c.toNat + 32) else c

def strLower (s : String) : String :=
  String.mk (s.toList.map lowerChar)

/-- `allowed_file` (lines 49-51). -/
def allowed_file (filename : String) : Bool :=
  filename.toList.contains '.' &&
    ALLOWED_EXTENSIONS.contains (strLower (extAfterLastDot filename))

/-- Result of the external detector call
`LP_detection.LP_detection(image_path)` (line 316): `ok cropped`
returns the cropped plate region (`none` for Python `None`, otherwise
its `.size`), `raise` models the detector raising an exception,
caught by the endpoint's generic handler. -/
inductive Detect where
  | ok (cropped : Option Nat)
  | raise

/-- Error classification of a response, read off the fixed message
strings of the source. -/
inductive ErrKind where
  | ok
  | missingInput
  | unsupportedFormat
  | noPlateDetected
  | extractionFailed
  | internalError
deriving DecidableEq

structure EndpointResult where
  status : Nat
  success : Bool
  err : ErrKind
  plate : Option (Json × Json × Json)
  detectorInvoked : Bool
  uploadCreated : Bool
  uploadRemoveCount : Nat
  extractedCreated : Bool
  extractedRemoveCount : Nat

/-- Routing decision of the intake section (lines 270-312). -/
inductive Route where
  | reject (e : ErrKind)
  | attrError
  | proceed

/-- Lines 270-312: form-file presence check, raw-body fallback guarded
by the content type and a non-empty body, empty-filename and
extension checks.  `attrError` is the `file = None` case in which
`file.filename` raises `AttributeError` (no file-like payload was
bound even though a form key existed). -/
def intakeRoute (req : Request) : Route :=
  if flookup req.files "image" = none ∧ flookup req.files "file" = none then
    match req.contentType with
    | some ct =>
      if ct ≠ "" ∧ occursIn ("image".toList) ct.toList = true then
        if req.bodyLen = 0 then Route.reject ErrKind.missingInput
        else Route.proceed
      else Route.reject ErrKind.missingInput
    | none => Route.reject ErrKind.missingInput
  else
    match formFile req.files with
    | none => Route.attrError
    | some f =>
      if f.filename = "" then Route.reject ErrKind.missingInput
      else if allowed_file f.filename = false then
        Route.reject ErrKind.unsupportedFormat
      else Route.proceed

def rejectResult (e : ErrKind) : EndpointResult :=
  { status := 400, success := false, err := e, plate := none,
    detectorInvoked := false, uploadCreated := false, uploadRemoveCount := 0,
    extractedCreated := false, extractedRemoveCount := 0 }

def attrErrorResult : EndpointResult :=
  { status := 500, success := false, err := ErrKind.internalError, plate := none,
    detectorInvoked := false, uploadCreated := false, uploadRemoveCount := 0,
    extractedCreated := false, extractedRemoveCount := 0 }

/-- Lines 318-327: `LP_extracted is None or size == 0` — the upload is
removed and a 400 `NoPlateDetected` response returned. -/
def notFoundResult : EndpointResult :=
  { status := 400, success := false, err := ErrKind.noPlateDetected, plate := none,
    detectorInvoked := true, uploadCreated := true, uploadRemoveCount := 1,
    extractedCreated := false, extractedRemoveCount := 0 }

/-- Lines 338-365, entered with the extracted plate written: text
extraction, cleanup of the upload (lines 342-343, 352-353, guarded by
an existence check), and response assembly (lines 356-365;
`plate_data.get` raises on a non-dict `plate_data`, landing in the
generic 500 handler after the upload was already removed). -/
def assembleResponse : ExtractOut → EndpointResult
  | ExtractOut.data (Json.obj d) =>
    { status := 200, success := true, err := ErrKind.ok,
      plate := some (pget d "left_number", pget d "middle_text",
                     pget d "right_number"),
      detectorInvoked := true, uploadCreated := true, uploadRemoveCount := 1,
      extractedCreated := true, extractedRemoveCount := 0 }
  | ExtractOut.data _ =>
    { status := 500, success := false, err := ErrKind.internalError,
      plate := none, detectorInvoked := true, uploadCreated := true,
      uploadRemoveCount := 1, extractedCreated := true,
      extractedRemoveCount := 0 }
  | ExtractOut.failParse _ =>
    { status := 500, success := false, err := ErrKind.extractionFailed,
      plate := none, detectorInvoked := true, uploadCreated := true,
      uploadRemoveCount := 1, extractedCreated := true,
      extractedRemoveCount := 0 }
  | ExtractOut.err =>
    { status := 500, success := false, err := ErrKind.extractionFailed,
      plate := none, detectorInvoked := true, uploadCreated := true,
      uploadRemoveCount := 1, extractedCreated := true,
      extractedRemoveCount := 0 }

/-- Lines 314-377, entered with the upload persisted: detection
(a raised detector exception lands in the generic handler, which
removes the upload, lines 367-377), the `NotFound` check (lines
318-327), the extracted-plate write (`imwrite`, line 334, never
removed), then extraction and response assembly. -/
def runPipeline : Detect → LLMOutcome → EndpointResult
  | Detect.raise, _ =>
    { status := 500, success := false, err := ErrKind.internalError, plate := none,
      detectorInvoked := true, uploadCreated := true, uploadRemoveCount := 1,
      extractedCreated := false, extractedRemoveCount := 0 }
  | Detect.ok none, _ => notFoundResult
  | Detect.ok (some sz), llm =>
    if sz = 0 then notFoundResult
    else assembleResponse (extract_text_with_llm llm)

/-- `recognize_license_plate` (lines 250-377). -/
def recognize_license_plate (req : Request) (det : Detect)
    (llm : LLMOutcome) : EndpointResult :=
  match intakeRoute req with
  | Route.reject e => rejectResult e
  | Route.attrError => attrErrorResult
  | Route.proceed => runPipeline det llm

/-- Number of temporary file artifacts (the upload and the extracted
plate image) still on disk after the response is returned. -/
def tempFilesRemaining (r : EndpointResult) : Nat :=
  (if r.uploadCreated && r.uploadRemoveCount == 0 then 1 else 0) +
  (if r.extractedCreated && r.extractedRemoveCount == 0 then 1 else 0)

example :
    (recognize_license_plate
      { files := [("image", { filename := "car.jpg" })], contentType := none,
        bodyLen := 0 }
      (Detect.ok (some 4))
      (LLMOutcome.reply "\x7b\"left_number\":\"1\",\"middle_text\":\"T\",\"right_number\":\"2\"\x7d")).status
    = 200 := by decide
example :
    (recognize_license_plate
      { files := [("image", { filename := "car.txt" })], contentType := none,
        bodyLen := 0 }
      (Detect.ok (some 4)) LLMOutcome.failure).err = ErrKind.unsupportedFormat := by decide

/-! Helper lemmas. -/

theorem dictLookup_isSome (kvs : List (String × Json)) (k : String) :
    (dictLookup kvs k).isSome = kvs.any (fun kv => kv.1 == k) := by
  induction kvs with
  | nil => rfl
  | cons kv rest ih =>
    obtain ⟨k1, v1⟩ := kv
    simp only [dictLookup, List.any_cons]
    cases h : dictLookup rest k with
    | some v2 =>
      rw [h] at ih
      simp [← ih]
    | none =>
      rw [h] at ih
      by_cases hk : k1 = k <;> simp [hk, ← ih]

theorem pyContainsAll_obj (d : List (String × Json)) :
    pyContainsAll (Json.obj d) =
      some (hasKey d "left_number" && hasKey d "middle_text" &&
            hasKey d "right_number") := by
  simp [pyContainsAll, pyContains, hasKey, dictLookup_isSome]

theorem scanBody_sound (cs : List Char) : ∀ body r,
    scanBody cs = some (body, r) →
    body.all (fun c => ¬(c = '{' ∨ c = '}')) = true ∧ cs = body ++ '}' :: r := by
  induction cs with
  | nil => intro body r h; simp [scanBody] at h
  | cons c rest ih =>
    intro body r h
    by_cases hc : c = '}'
    · subst hc
      simp only [scanBody, if_pos rfl, Option.some.injEq, Prod.mk.injEq] at h
      obtain ⟨rfl, rfl⟩ := h
      simp
    · by_cases hb : c = '{'
      · subst hb
        simp [scanBody, hc] at h
      · simp only [scanBody, if_neg hc, if_neg hb] at h
        cases hs : scanBody rest with
        | none => rw [hs] at h; exact absurd h (by simp)
        | some p =>
          obtain ⟨body2, r2⟩ := p
          rw [hs] at h
          simp only [Option.some.injEq, Prod.mk.injEq] at h
          obtain ⟨hbody, hr⟩ := h
          obtain ⟨hall, hcs⟩ := ih body2 r2 hs
          subst hbody hr
          refine ⟨?_, by simp [hcs]⟩
          simp only [List.all_cons, Bool.and_eq_true, decide_eq_true_eq]
          exact ⟨by tauto, hall⟩

theorem scanBody_complete (body post : List Char)
    (h : body.all (fun c => ¬(c = '{' ∨ c = '}')) = true) :
    scanBody (body ++ '}' :: post) = some (body, post) := by
  induction body with
  | nil => simp [scanBody]
  | cons c rest ih =>
    simp only [List.all_cons, Bool.and_eq_true, decide_eq_true_eq] at h
    obtain ⟨hc, hrest⟩ := h
    have hc1 : c ≠ '{' := fun hh => hc (Or.inl hh)
    have hc2 : c ≠ '}' := fun hh => hc (Or.inr hh)
    have hr := ih hrest
    simp [List.cons_append, scanBody, if_neg hc2, if_neg hc1, hr]

theorem spanAt_mem {cs pre m : List Char} (h : spanAt cs pre m) {a : Char}
    (ha : a ∈ m) : a ∈ cs := by
  obtain ⟨post, rfl⟩ := h
  simp [List.mem_append, ha]

theorem braceSpan_mem {m : List Char} (h : isBraceSpan m) : '}' ∈ m := by
  obtain ⟨body, rfl, -⟩ := h
  simp

/-- Soundness, substring property and leftmostness of the regex
search: a returned match has the brace-pair shape, occurs in the
input, and starts no later than any other brace-pair occurrence. -/
theorem findBraceMatch_spec (cs m : List Char)
    (h : findBraceMatch cs = some m) :
    isBraceSpan m ∧
    ∃ pre, spanAt cs pre m ∧
      ∀ pre2 m2, isBraceSpan m2 → spanAt cs pre2 m2 →
        pre.length ≤ pre2.length := by
  induction cs with
  | nil => simp [findBraceMatch] at h
  | cons c rest ih =>
    by_cases hc : c = '{'
    · subst hc
      simp only [findBraceMatch, if_pos rfl, eq_self_iff_true, if_true] at h
      cases hs : scanBody rest with
      | some p =>
        obtain ⟨body, r⟩ := p
        rw [hs] at h
        simp only [Option.some.injEq] at h
        subst h
        obtain ⟨hall, hrest⟩ := scanBody_sound rest body r hs
        refine ⟨⟨body, rfl, hall⟩, [], ⟨r, by simp [hrest]⟩, ?_⟩
        intro pre2 m2 _ _
        simp
      | none =>
        rw [hs] at h
        obtain ⟨hshape, pre, hspan, hmin⟩ := ih h
        refine ⟨hshape, '{' :: pre, ?_, ?_⟩
        · obtain ⟨post, rfl⟩ := hspan
          exact ⟨post, rfl⟩
        · intro pre2 m2 hshape2 hspan2
          obtain ⟨post2, heq⟩ := hspan2
          cases pre2 with
          | nil =>
            obtain ⟨body2, rfl, hall2⟩ := hshape2
            simp only [List.nil_append, List.cons_append, List.cons.injEq] at heq
            have : rest = body2 ++ '}' :: post2 := by
              simpa [List.append_assoc] using heq.2
            rw [this, scanBody_complete body2 post2 hall2] at hs
            exact absurd hs (by simp)
          | cons c2 t =>
            simp only [List.cons_append, List.cons.injEq] at heq
            have : spanAt rest t m2 := ⟨post2, heq.2⟩
            have := hmin t m2 hshape2 this
            simpa using Nat.succ_le_succ this
    · simp only [findBraceMatch, if_neg hc] at h
      obtain ⟨hshape, pre, hspan, hmin⟩ := ih h
      refine ⟨hshape, c :: pre, ?_, ?_⟩
      · obtain ⟨post, rfl⟩ := hspan
        exact ⟨post, rfl⟩
      · intro pre2 m2 hshape2 hspan2
        obtain ⟨post2, heq⟩ := hspan2
        cases pre2 with
        | nil =>
          obtain ⟨body2, rfl, -⟩ := hshape2
          simp only [List.nil_append, List.cons_append, List.cons.injEq] at heq
          exact absurd heq.1 hc
        | cons c2 t =>
          simp only [List.cons_append, List.cons.injEq] at heq
          have : spanAt rest t m2 := ⟨post2, heq.2⟩
          have := hmin t m2 hshape2 this
          simpa using Nat.succ_le_succ this

/-- A request whose processing invoked the detector went through the
full pipeline: all intake-rejection results leave the detector
uninvoked. -/
theorem reached_pipeline (req : Request) (det : Detect) (llm : LLMOutcome)
    (h : (recognize_license_plate req det llm).detectorInvoked = true) :
    recognize_license_plate req det llm = runPipeline det llm := by
  unfold recognize_license_plate at h ⊢
  cases hr : intakeRoute req with
  | reject e => rw [hr] at h; simp [rejectResult] at h
  | attrError => rw [hr] at h; simp [attrErrorResult] at h
  | proceed => rfl

/-- The response assembler always reports the upload created and
removed once, the detector invoked, and the extracted image created
but never removed. -/
theorem assembleResponse_trace (x : ExtractOut) :
    (assembleResponse x).uploadCreated = true ∧
    (assembleResponse x).detectorInvoked = true ∧
    (assembleResponse x).uploadRemoveCount = 1 ∧
    (assembleResponse x).extractedCreated = true ∧
    (assembleResponse x).extractedRemoveCount = 0 := by
  cases x with
  | data j => cases j <;> exact ⟨rfl, rfl, rfl, rfl, rfl⟩
  | failParse raw => exact ⟨rfl, rfl, rfl, rfl, rfl⟩
  | err => exact ⟨rfl, rfl, rfl, rfl, rfl⟩

/-- When the extraction stage does not deliver a dict, the assembled
response is a 500 without success. -/
theorem assembleResponse_fail (x : ExtractOut)
    (hx : ∀ d, x ≠ ExtractOut.data (Json.obj d)) :
    (assembleResponse x).status = 500 ∧ (assembleResponse x).success = false := by
  cases x with
  | data j =>
    cases j with
    | obj d => exact absurd rfl (hx d)
    | null => exact ⟨rfl, rfl⟩
    | bool b => exact ⟨rfl, rfl⟩
    | num s => exact ⟨rfl, rfl⟩
    | str s => exact ⟨rfl, rfl⟩
    | arr xs => exact ⟨rfl, rfl⟩
  | failParse raw => exact ⟨rfl, rfl⟩
  | err => exact ⟨rfl, rfl⟩

/-- Every pipeline run marks the upload as created and the detector as
invoked (the upload is persisted before detection starts). -/
theorem runPipeline_upload (det : Detect) (llm : LLMOutcome) :
    (runPipeline det llm).uploadCreated = true ∧
    (runPipeline det llm).detectorInvoked = true := by
  cases det with
  | raise => exact ⟨rfl, rfl⟩
  | ok cropped =>
    cases cropped with
    | none => exact ⟨rfl, rfl⟩
    | some sz =>
      simp only [runPipeline]
      by_cases hsz : sz = 0
      · simp [hsz, notFoundResult]
      · rw [if_neg hsz]
        exact ⟨(assembleResponse_trace _).1, (assembleResponse_trace _).2.1⟩

/-- When the extraction stage does not deliver a dict, a pipeline run
that found a plate responds 500 without success. -/
theorem runPipeline_fail (n : Nat) (hn : n ≠ 0) (llm : LLMOutcome)
    (hx : ∀ d, extract_text_with_llm llm ≠ ExtractOut.data (Json.obj d)) :
    (runPipeline (Detect.ok (some n)) llm).status = 500 ∧
    (runPipeline (Detect.ok (some n)) llm).success = false := by
  simp only [runPipeline]
  rw [if_neg hn]
  exact assembleResponse_fail _ hx

/-- When the extraction stage does not deliver a dict, no request at
all gets a success response. -/
theorem recognize_no_success (req : Request) (det : Detect) (llm : LLMOutcome)
    (hx : ∀ d, extract_text_with_llm llm ≠ ExtractOut.data (Json.obj d)) :
    (recognize_license_plate req det llm).success = false := by
  unfold recognize_license_plate
  cases hr : intakeRoute req with
  | reject e => rfl
  | attrError => rfl
  | proceed =>
    show (runPipeline det llm).success = false
    cases det with
    | raise => rfl
    | ok cropped =>
      cases cropped with
      | none => rfl
      | some sz =>
        simp only [runPipeline]
        by_cases hsz : sz = 0
        · simp [hsz, notFoundResult]
        · rw [if_neg hsz]
          exact (assembleResponse_fail _ hx).2

/-! The claims. -/

/-- Claim C5: a reply whose entire content is a well-formed JSON
object containing all three required field names parses to the
identical record — the object's field values are used directly and the
dict is returned unchanged. -/
theorem claim5_roundtrip (content : String) (d : List (String × Json))
    (hp : parseJson content = some (Json.obj d))
    (h1 : hasKey d "left_number" = true)
    (h2 : hasKey d "middle_text" = true)
    (h3 : hasKey d "right_number" = true) :
    parse_llm_content content = ExtractOut.data (Json.obj d) := by
  simp [parse_llm_content, parsedOf, hp, handleDirect, pyContainsAll_obj,
    h1, h2, h3]

/-- Witness for claim C5 at the spec's example reply. -/
theorem claim5_roundtrip_witness :
    parse_llm_content "\x7b\"left_number\":\"123\",\"middle_text\":\"X\",\"right_number\":\"45\"\x7d" =
      ExtractOut.data (Json.obj [("left_number", Json.str "123"),
        ("middle_text", Json.str "X"), ("right_number", Json.str "45")]) :=
  claim5_roundtrip _ _ rfl rfl rfl rfl

/-- Claim C3: a reply that parses as a JSON object missing one or more
required fields yields a record in which each missing field is the
sentinel "UNREADABLE" and each present field keeps its original
value. -/
theorem claim3_partial_fill (content : String) (d : List (String × Json))
    (hp : parseJson content = some (Json.obj d))
    (hm : ¬(hasKey d "left_number" = true ∧ hasKey d "middle_text" = true ∧
            hasKey d "right_number" = true)) :
    parse_llm_content content =
      ExtractOut.data (Json.obj
        [("left_number", (dictLookup d "left_number").getD (Json.str "UNREADABLE")),
         ("middle_text", (dictLookup d "middle_text").getD (Json.str "UNREADABLE")),
         ("right_number", (dictLookup d "right_number").getD (Json.str "UNREADABLE"))]) := by
  have hb : (hasKey d "left_number" && hasKey d "middle_text" &&
      hasKey d "right_number") = false := by
    cases hl : hasKey d "left_number" <;>
      cases hmid : hasKey d "middle_text" <;>
        cases hr : hasKey d "right_number" <;> simp_all
  simp [parse_llm_content, parsedOf, hp, handleDirect, pyContainsAll_obj,
    hb, fillOrErr, fillDefaults, pget]

/-- Witness for claim C3 at the spec's example partial input. -/
theorem claim3_partial_fill_witness :
    parse_llm_content "\x7b\"left_number\":\"123\"\x7d" =
      ExtractOut.data (Json.obj [("left_number", Json.str "123"),
        ("middle_text", Json.str "UNREADABLE"),
        ("right_number", Json.str "UNREADABLE")]) :=
  claim3_partial_fill "\x7b\"left_number\":\"123\"\x7d"
    [("left_number", Json.str "123")] rfl (by decide)

/-- Claim C4: when direct parsing fails, the parser takes the first
substring that is a single balanced brace pair with no nested braces
(soundness, occurrence and leftmostness of the regex search), parses
it, and applies the same missing-field completion as the partial-parse
step. -/
theorem claim4_embedded_fallback (content : String) (m : List Char)
    (d : List (String × Json))
    (h1 : parseJson content = none)
    (h2 : findBraceMatch content.toList = some m)
    (h3 : parseJson (String.mk m) = some (Json.obj d)) :
    parse_llm_content content = ExtractOut.data (fillDefaults d) ∧
    isBraceSpan m ∧
    (∃ pre, spanAt content.toList pre m ∧
       ∀ pre2 m2, isBraceSpan m2 → spanAt content.toList pre2 m2 →
         pre.length ≤ pre2.length) := by
  obtain ⟨hshape, pre, hspan, hmin⟩ := findBraceMatch_spec _ _ h2
  refine ⟨?_, hshape, pre, hspan, hmin⟩
  simp only [parse_llm_content, parsedOf, handleFallback, fallbackOf,
    handleParsed, h1, h2, h3]

/-- Witness for claim C4 at the spec's noisy example input. -/
theorem claim4_embedded_fallback_witness :
    parse_llm_content "Here is the result: \x7b\"left_number\":\"7\",\"middle_text\":\"X\",\"right_number\":\"9\"\x7d thanks" =
      ExtractOut.data (Json.obj [("left_number", Json.str "7"),
        ("middle_text", Json.str "X"), ("right_number", Json.str "9")]) :=
  (claim4_embedded_fallback
    "Here is the result: \x7b\"left_number\":\"7\",\"middle_text\":\"X\",\"right_number\":\"9\"\x7d thanks"
    ("\x7b\"left_number\":\"7\",\"middle_text\":\"X\",\"right_number\":\"9\"\x7d".toList)
    [("left_number", Json.str "7"), ("middle_text", Json.str "X"),
     ("right_number", Json.str "9")]
    rfl rfl rfl).1

/-- A direct-parse outcome that is a dict has all three required
keys. -/
theorem handleDirect_obj_keys (j : Json) (d : List (String × Json))
    (h : handleDirect j = ExtractOut.data (Json.obj d)) :
    hasKey d "left_number" = true ∧ hasKey d "middle_text" = true ∧
    hasKey d "right_number" = true := by
  unfold handleDirect at h
  cases hc : pyContainsAll j with
  | none =>
    rw [hc] at h
    exact ExtractOut.noConfusion (show ExtractOut.err = _ from h)
  | some b =>
    rw [hc] at h
    cases b with
    | true =>
      have hj : j = Json.obj d := by
        injection (show ExtractOut.data j = _ from h)
      subst hj
      rw [pyContainsAll_obj] at hc
      have hc2 : (hasKey d "left_number" && hasKey d "middle_text" &&
          hasKey d "right_number") = true := by injection hc
      simp only [Bool.and_eq_true] at hc2
      exact ⟨hc2.1.1, hc2.1.2, hc2.2⟩
    | false =>
      have h2 : fillOrErr j = ExtractOut.data (Json.obj d) := h
      cases j with
      | obj d2 =>
        simp only [fillOrErr] at h2
        have h3 : fillDefaults d2 = Json.obj d := by injection h2
        have h4 : [("left_number", pget d2 "left_number"),
            ("middle_text", pget d2 "middle_text"),
            ("right_number", pget d2 "right_number")] = d := by injection h3
        subst h4
        exact ⟨rfl, rfl, rfl⟩
      | null => simp [fillOrErr] at h2
      | bool bb => simp [fillOrErr] at h2
      | num s => simp [fillOrErr] at h2
      | str s => simp [fillOrErr] at h2
      | arr xs => simp [fillOrErr] at h2

/-- A fallback outcome that is a dict has all three required keys. -/
theorem handleFallback_obj_keys (content : String) (d : List (String × Json))
    (h : handleFallback content = ExtractOut.data (Json.obj d)) :
    hasKey d "left_number" = true ∧ hasKey d "middle_text" = true ∧
    hasKey d "right_number" = true := by
  unfold handleFallback at h
  cases hf : findBraceMatch content.toList with
  | none => rw [hf] at h; simp [fallbackOf] at h
  | some m =>
    rw [hf] at h
    simp only [fallbackOf] at h
    cases hj : parseJson (String.mk m) with
    | none => rw [hj] at h; simp [handleParsed] at h
    | some j =>
      rw [hj] at h
      cases j with
      | obj d2 =>
        simp only [handleParsed] at h
        have h3 : fillDefaults d2 = Json.obj d := by injection h
        have h4 : [("left_number", pget d2 "left_number"),
            ("middle_text", pget d2 "middle_text"),
            ("right_number", pget d2 "right_number")] = d := by injection h3
        subst h4
        exact ⟨rfl, rfl, rfl⟩
      | null => simp [handleParsed] at h
      | bool bb => simp [handleParsed] at h
      | num s => simp [handleParsed] at h
      | str s => simp [handleParsed] at h
      | arr xs => simp [handleParsed] at h

/-- Claim C1: every record (dict) produced by the parsing stage has
all three fields present — a field that could not be read is the
sentinel, never absent — and every success response of the endpoint
carries all three plate fields. -/
theorem claim1_record_complete :
    (∀ content d, parse_llm_content content = ExtractOut.data (Json.obj d) →
       hasKey d "left_number" = true ∧ hasKey d "middle_text" = true ∧
       hasKey d "right_number" = true) ∧
    (∀ req det llm, (recognize_license_plate req det llm).success = true →
       ∃ l m r, (recognize_license_plate req det llm).plate = some (l, m, r)) := by
  constructor
  · intro content d h
    unfold parse_llm_content at h
    cases hp : parseJson content with
    | some j =>
      rw [hp] at h
      exact handleDirect_obj_keys j d h
    | none =>
      rw [hp] at h
      exact handleFallback_obj_keys content d h
  · intro req det llm h
    unfold recognize_license_plate at h ⊢
    cases hr : intakeRoute req with
    | reject e => rw [hr] at h; simp [rejectResult] at h
    | attrError => rw [hr] at h; simp [attrErrorResult] at h
    | proceed =>
      rw [hr] at h
      show ∃ l m r, (runPipeline det llm).plate = some (l, m, r)
      have h2 : (runPipeline det llm).success = true := h
      cases det with
      | raise => simp [runPipeline] at h2
      | ok cropped =>
        cases cropped with
        | none => simp [runPipeline, notFoundResult] at h2
        | some sz =>
          simp only [runPipeline] at h2 ⊢
          by_cases hsz : sz = 0
          · rw [if_pos hsz] at h2; simp [notFoundResult] at h2
          · rw [if_neg hsz] at h2 ⊢
            cases hx : extract_text_with_llm llm with
            | data j =>
              cases j with
              | obj d => exact ⟨_, _, _, rfl⟩
              | null => simp [assembleResponse, hx] at h2
              | bool bb => simp [assembleResponse, hx] at h2
              | num s => simp [assembleResponse, hx] at h2
              | str s => simp [assembleResponse, hx] at h2
              | arr xs => simp [assembleResponse, hx] at h2
            | failParse raw => simp [assembleResponse, hx] at h2
            | err => simp [assembleResponse, hx] at h2

/-- Witness for claim C1: a partial reply yields a record with all
three keys, and a concrete successful request carries three plate
fields. -/
theorem claim1_record_complete_witness :
    (hasKey [("left_number", Json.str "9"),
       ("middle_text", Json.str "UNREADABLE"),
       ("right_number", Json.str "UNREADABLE")] "left_number" = true ∧
     hasKey [("left_number", Json.str "9"),
       ("middle_text", Json.str "UNREADABLE"),
       ("right_number", Json.str "UNREADABLE")] "middle_text" = true ∧
     hasKey [("left_number", Json.str "9"),
       ("middle_text", Json.str "UNREADABLE"),
       ("right_number", Json.str "UNREADABLE")] "right_number" = true) ∧
    (∃ l m r,
      (recognize_license_plate
        { files := [("image", { filename := "plate.png" })],
          contentType := none, bodyLen := 0 }
        (Detect.ok (some 9))
        (LLMOutcome.reply "\x7b\"left_number\":\"10\",\"middle_text\":\"T\",\"right_number\":\"88\"\x7d")).plate
        = some (l, m, r)) :=
  ⟨claim1_record_complete.1 "\x7b\"left_number\":\"9\"\x7d" _ rfl,
   claim1_record_complete.2
     { files := [("image", { filename := "plate.png" })],
       contentType := none, bodyLen := 0 }
     (Detect.ok (some 9))
     (LLMOutcome.reply "\x7b\"left_number\":\"10\",\"middle_text\":\"T\",\"right_number\":\"88\"\x7d")
     (by decide)⟩

/-- Claim C10: a reply that is valid JSON but not a JSON object is
settled entirely by the direct branch (the fallback search is never
consulted), never produces a success response, and a plate-found
request is answered 500. -/
theorem claim10_nonobject (content : String) (j : Json)
    (hp : parseJson content = some j)
    (hno : ∀ kvs, j ≠ Json.obj kvs) :
    parse_llm_content content = handleDirect j ∧
    (handleDirect j = ExtractOut.err ∨ handleDirect j = ExtractOut.data j) ∧
    (∀ req det,
      (recognize_license_plate req det (LLMOutcome.reply content)).success
        = false) ∧
    (∀ req n, n ≠ 0 →
      (recognize_license_plate req (Detect.ok (some n))
        (LLMOutcome.reply content)).detectorInvoked = true →
      (recognize_license_plate req (Detect.ok (some n))
        (LLMOutcome.reply content)).status = 500) := by
  have h1 : parse_llm_content content = handleDirect j := by
    simp [parse_llm_content, parsedOf, hp]
  have h2 : handleDirect j = ExtractOut.err ∨
      handleDirect j = ExtractOut.data j := by
    unfold handleDirect
    cases hc : pyContainsAll j with
    | none => exact Or.inl rfl
    | some b =>
      cases b with
      | true => exact Or.inr rfl
      | false =>
        left
        show fillOrErr j = ExtractOut.err
        cases j with
        | obj d => exact absurd rfl (hno d)
        | null => rfl
        | bool bb => rfl
        | num s => rfl
        | str s => rfl
        | arr xs => rfl
  have hx : ∀ d, extract_text_with_llm (LLMOutcome.reply content) ≠
      ExtractOut.data (Json.obj d) := by
    intro d hcontra
    rw [show extract_text_with_llm (LLMOutcome.reply content) =
      parse_llm_content content from rfl, h1] at hcontra
    rcases h2 with h2 | h2
    · rw [h2] at hcontra; exact ExtractOut.noConfusion hcontra
    · rw [h2] at hcontra
      have hj : j = Json.obj d := by injection hcontra
      exact absurd hj (hno d)
  refine ⟨h1, h2, fun req det => recognize_no_success req det _ hx, ?_⟩
  intro req n hn hreach
  rw [reached_pipeline _ _ _ hreach]
  exact (runPipeline_fail n hn _ hx).1

/-- Witness for claim C10 at the JSON-array reply. -/
theorem claim10_nonobject_witness :
    parse_llm_content "[1, 2]" = handleDirect (Json.arr [Json.num "1", Json.num "2"]) ∧
    (recognize_license_plate
      { files := [("file", { filename := "auto.bmp" })], contentType := none,
        bodyLen := 0 }
      (Detect.ok (some 2)) (LLMOutcome.reply "[1, 2]")).success = false ∧
    (recognize_license_plate
      { files := [("file", { filename := "auto.bmp" })], contentType := none,
        bodyLen := 0 }
      (Detect.ok (some 2)) (LLMOutcome.reply "[1, 2]")).status = 500 := by
  have main := claim10_nonobject "[1, 2]" (Json.arr [Json.num "1", Json.num "2"])
    rfl (fun kvs h => Json.noConfusion h)
  exact ⟨main.1,
    main.2.2.1
      { files := [("file", { filename := "auto.bmp" })], contentType := none,
        bodyLen := 0 }
      (Detect.ok (some 2)),
    main.2.2.2
      { files := [("file", { filename := "auto.bmp" })], contentType := none,
        bodyLen := 0 }
      2 (by decide) (by decide)⟩

/-- Claim C2: when the reply content does not parse as JSON and no
balanced brace-pair substring of it parses as JSON, the parser returns
the total-failure classification carrying the raw content, and a
request whose detection succeeded is answered 500 without success. -/
theorem claim2_total_failure (content : String)
    (h1 : parseJson content = none)
    (h2 : ∀ m, isBraceSpan m → (∃ pre, spanAt content.toList pre m) →
          parseJson (String.mk m) = none) :
    parse_llm_content content = ExtractOut.failParse content ∧
    (∀ req n, n ≠ 0 →
       (recognize_license_plate req (Detect.ok (some n))
         (LLMOutcome.reply content)).detectorInvoked = true →
       (recognize_license_plate req (Detect.ok (some n))
         (LLMOutcome.reply content)).status = 500 ∧
       (recognize_license_plate req (Detect.ok (some n))
         (LLMOutcome.reply content)).success = false) := by
  have hparse : parse_llm_content content = ExtractOut.failParse content := by
    simp only [parse_llm_content, parsedOf, handleFallback, h1]
    cases hf : findBraceMatch content.toList with
    | none => rfl
    | some m =>
      obtain ⟨hshape, pre, hspan, -⟩ := findBraceMatch_spec _ _ hf
      have hm := h2 m hshape ⟨pre, hspan⟩
      simp [fallbackOf, handleParsed, hm]
  refine ⟨hparse, ?_⟩
  intro req n hn hreach
  rw [reached_pipeline _ _ _ hreach]
  have hx : ∀ d, extract_text_with_llm (LLMOutcome.reply content) ≠
      ExtractOut.data (Json.obj d) := by
    intro d hcontra
    rw [show extract_text_with_llm (LLMOutcome.reply content) =
      parse_llm_content content from rfl, hparse] at hcontra
    exact ExtractOut.noConfusion hcontra
  exact runPipeline_fail n hn _ hx

/-- Witness for claim C2: a reply with no JSON and no closing brace at
all; the parser reports total failure and a plate-found request gets a
500 non-success response. -/
theorem claim2_total_failure_witness :
    parse_llm_content "I cannot read this plate" =
      ExtractOut.failParse "I cannot read this plate" ∧
    (recognize_license_plate
      { files := [("image", { filename := "car.jpg" })], contentType := none,
        bodyLen := 0 }
      (Detect.ok (some 3))
      (LLMOutcome.reply "I cannot read this plate")).status = 500 := by
  have h2 : ∀ m, isBraceSpan m →
      (∃ pre, spanAt ("I cannot read this plate".toList) pre m) →
      parseJson (String.mk m) = none := by
    intro m hshape ⟨pre, hspan⟩
    have : '}' ∈ "I cannot read this plate".toList :=
      spanAt_mem hspan (braceSpan_mem hshape)
    exact absurd this (by decide)
  have main := claim2_total_failure "I cannot read this plate" rfl h2
  exact ⟨main.1,
    (main.2
      { files := [("image", { filename := "car.jpg" })],
        contentType := none, bodyLen := 0 }
      3 (by decide) (by decide)).1⟩

/-- Claim C7: a form upload whose filename fails the extension
allow-list check is rejected 400 as `UnsupportedFormat`, with the
detector never invoked and no upload persisted. -/
theorem claim7_bad_extension (req : Request) (det : Detect) (llm : LLMOutcome)
    (f : FileUpload)
    (hf : formFile req.files = some f)
    (hn : f.filename ≠ "")
    (ha : allowed_file f.filename = false) :
    (recognize_license_plate req det llm).status = 400 ∧
    (recognize_license_plate req det llm).success = false ∧
    (recognize_license_plate req det llm).err = ErrKind.unsupportedFormat ∧
    (recognize_license_plate req det llm).detectorInvoked = false ∧
    (recognize_license_plate req det llm).uploadCreated = false := by
  have hkey : ¬(flookup req.files "image" = none ∧
      flookup req.files "file" = none) := by
    rintro ⟨hi, hfl⟩
    simp [formFile, hi, hfl] at hf
  have hroute : intakeRoute req = Route.reject ErrKind.unsupportedFormat := by
    simp [intakeRoute, hkey, hf, hn, ha]
  unfold recognize_license_plate
  rw [hroute]
  exact ⟨rfl, rfl, rfl, rfl, rfl⟩

/-- Witness for claim C7: a `.txt` upload is rejected without
detection. -/
theorem claim7_bad_extension_witness :
    (recognize_license_plate
      { files := [("file", { filename := "document.txt" })],
        contentType := none, bodyLen := 0 }
      (Detect.ok (some 5)) LLMOutcome.failure).status = 400 ∧
    (recognize_license_plate
      { files := [("file", { filename := "document.txt" })],
        contentType := none, bodyLen := 0 }
      (Detect.ok (some 5)) LLMOutcome.failure).err
      = ErrKind.unsupportedFormat ∧
    (recognize_license_plate
      { files := [("file", { filename := "document.txt" })],
        contentType := none, bodyLen := 0 }
      (Detect.ok (some 5)) LLMOutcome.failure).detectorInvoked = false := by
  have main := claim7_bad_extension
    { files := [("file", { filename := "document.txt" })],
      contentType := none, bodyLen := 0 }
    (Detect.ok (some 5)) LLMOutcome.failure
    { filename := "document.txt" } rfl (by decide) (by decide)
  exact ⟨main.1, main.2.2.1, main.2.2.2.1⟩

/-- Claim C8: a detector outcome with a null or zero-area cropped
region terminates the request as a 400 `NoPlateDetected` — not an
internal error — with the temporary upload deleted before the
response and no extracted-plate artifact written. -/
theorem claim8_no_plate (req : Request) (llm : LLMOutcome) (c : Option Nat)
    (hc : c = none ∨ c = some 0)
    (hreach : (recognize_license_plate req (Detect.ok c) llm).detectorInvoked
      = true) :
    (recognize_license_plate req (Detect.ok c) llm).status = 400 ∧
    (recognize_license_plate req (Detect.ok c) llm).success = false ∧
    (recognize_license_plate req (Detect.ok c) llm).err
      = ErrKind.noPlateDetected ∧
    (recognize_license_plate req (Detect.ok c) llm).uploadCreated = true ∧
    (recognize_license_plate req (Detect.ok c) llm).uploadRemoveCount = 1 ∧
    (recognize_license_plate req (Detect.ok c) llm).extractedCreated = false := by
  rw [reached_pipeline _ _ _ hreach]
  rcases hc with rfl | rfl
  · exact ⟨rfl, rfl, rfl, rfl, rfl, rfl⟩
  · exact ⟨rfl, rfl, rfl, rfl, rfl, rfl⟩

/-- Witness for claim C8: a raw-body request whose detector finds no
plate gets a 400 with the upload removed. -/
theorem claim8_no_plate_witness :
    (recognize_license_plate
      { files := [], contentType := some "image/jpeg", bodyLen := 10 }
      (Detect.ok none) LLMOutcome.failure).status = 400 ∧
    (recognize_license_plate
      { files := [], contentType := some "image/jpeg", bodyLen := 10 }
      (Detect.ok none) LLMOutcome.failure).err = ErrKind.noPlateDetected ∧
    (recognize_license_plate
      { files := [], contentType := some "image/jpeg", bodyLen := 10 }
      (Detect.ok none) LLMOutcome.failure).uploadRemoveCount = 1 := by
  have main := claim8_no_plate
    { files := [], contentType := some "image/jpeg", bodyLen := 10 }
    LLMOutcome.failure none (Or.inl rfl) (by decide)
  exact ⟨main.1, main.2.2.1, main.2.2.2.2.1⟩

/-- Claim C9: a request without named form files but with a raw body
and an image content type is accepted with no format or content
check — nothing about the body is inspected beyond its length — and
the body is persisted to a temporary file before detection runs. -/
theorem claim9_raw_body (req : Request) (det : Detect) (llm : LLMOutcome)
    (ct : String)
    (h1 : flookup req.files "image" = none)
    (h2 : flookup req.files "file" = none)
    (h3 : req.contentType = some ct)
    (h4 : ct ≠ "")
    (h5 : occursIn ("image".toList) ct.toList = true)
    (h6 : req.bodyLen ≠ 0) :
    recognize_license_plate req det llm = runPipeline det llm ∧
    (recognize_license_plate req det llm).uploadCreated = true ∧
    (recognize_license_plate req det llm).detectorInvoked = true := by
  have hroute : intakeRoute req = Route.proceed := by
    simp [intakeRoute, h1, h2, h3, h4, h6]
    simpa using h5
  have heq : recognize_license_plate req det llm = runPipeline det llm := by
    unfold recognize_license_plate
    rw [hroute]
  rw [heq]
  exact ⟨rfl, (runPipeline_upload det llm).1, (runPipeline_upload det llm).2⟩

/-- Witness for claim C9: an arbitrary raw PNG body proceeds to
detection with the upload persisted. -/
theorem claim9_raw_body_witness :
    (recognize_license_plate
      { files := [], contentType := some "image/png", bodyLen := 42 }
      (Detect.ok (some 1)) LLMOutcome.failure).uploadCreated = true ∧
    (recognize_license_plate
      { files := [], contentType := some "image/png", bodyLen := 42 }
      (Detect.ok (some 1)) LLMOutcome.failure).detectorInvoked = true := by
  have main := claim9_raw_body
    { files := [], contentType := some "image/png", bodyLen := 42 }
    (Detect.ok (some 1)) LLMOutcome.failure "image/png"
    rfl rfl rfl (by decide) (by decide) (by decide)
  exact ⟨main.2.1, main.2.2⟩

/-- Counterexample to claim C6: on a successful request the extracted
plate image written to the output folder is never deleted, so one
temporary artifact remains after the 200 response — the claim's
zero-remaining invariant fails on the success outcome. -/
theorem claim6_counterexample :
    (recognize_license_plate
      { files := [("image", { filename := "car.jpg" })], contentType := none,
        bodyLen := 0 }
      (Detect.ok (some 4))
      (LLMOutcome.reply "\x7b\"left_number\":\"1\",\"middle_text\":\"T\",\"right_number\":\"2\"\x7d")).status
      = 200 ∧
    (recognize_license_plate
      { files := [("image", { filename := "car.jpg" })], contentType := none,
        bodyLen := 0 }
      (Detect.ok (some 4))
      (LLMOutcome.reply "\x7b\"left_number\":\"1\",\"middle_text\":\"T\",\"right_number\":\"2\"\x7d")).success
      = true ∧
    tempFilesRemaining
      (recognize_license_plate
        { files := [("image", { filename := "car.jpg" })], contentType := none,
          bodyLen := 0 }
        (Detect.ok (some 4))
        (LLMOutcome.reply "\x7b\"left_number\":\"1\",\"middle_text\":\"T\",\"right_number\":\"2\"\x7d"))
      = 1 := by
  refine ⟨?_, ?_, ?_⟩ <;> decide

/-- Claim C6 as amended: the temporary upload is deleted exactly once
whenever it was created, on every classified outcome; the derived
extracted-plate image, however, is written to the output folder and
never deleted. -/
theorem claim6_upload_cleanup (req : Request) (det : Detect)
    (llm : LLMOutcome) :
    (recognize_license_plate req det llm).uploadRemoveCount =
      (if (recognize_license_plate req det llm).uploadCreated = true
       then 1 else 0) ∧
    (recognize_license_plate req det llm).extractedRemoveCount = 0 := by
  unfold recognize_license_plate
  cases hr : intakeRoute req with
  | reject e => exact ⟨rfl, rfl⟩
  | attrError => exact ⟨rfl, rfl⟩
  | proceed =>
    show (runPipeline det llm).uploadRemoveCount =
        (if (runPipeline det llm).uploadCreated = true then 1 else 0) ∧
      (runPipeline det llm).extractedRemoveCount = 0
    cases det with
    | raise => exact ⟨rfl, rfl⟩
    | ok cropped =>
      cases cropped with
      | none => exact ⟨rfl, rfl⟩
      | some sz =>
        simp only [runPipeline]
        by_cases hsz : sz = 0
        · simp [hsz, notFoundResult]
        · simp only [if_neg hsz]
          obtain ⟨hu, -, hrc, -, hxr⟩ :=
            assembleResponse_trace (extract_text_with_llm llm)
          simp [hu, hrc, hxr]

end LPApi
